import Mathlib

/-!
Verification of `mcp_server.py` (Surelook Holmes MCP server).

The server exposes stateless tools over two external collaborators: a
Supabase-backed relational store and a LinkedIn profile-enrichment HTTP API.
We embed each tool as a pure Lean function:

* JSON-ish dynamic values are the inductive `J` (Python dicts become
  association lists; JSON numbers are modelled as integers, no claim under
  verification involves numeric values).
* The Supabase client is an oracle `store : Request → J` mapping the request
  a tool builds to the `response.data` the store would return; each tool
  returns its result value together with the list of requests it issued, so
  "no request is issued" is `issued = []`.
* Python attribute errors (calling `.get` on a non-dict) and the HTTP
  request itself are modelled in `Except String`; the `try/except` of
  `who_is_this` is the final `match` that converts any error into the
  structured `{"error": ...}` payload.
-/

namespace SurelookHolmes

/-- Dynamic (JSON-ish) values as manipulated by the Python code. -/
inductive J where
  | null
  | b (bb : Bool)
  | num (n : Int)
  | s (t : String)
  | arr (xs : List J)
  | obj (fields : List (String × J))
  deriving Repr

/-- Python truthiness of a value (`if x:`): None, False, 0, "", [] and
the empty dict are falsy, everything else is truthy. -/
def truthy : J → Bool
  | J.null => false
  | J.b bb => bb
  | J.num n => !(n == 0)
  | J.s t => !(t == "")
  | J.arr xs => !xs.isEmpty
  | J.obj fs => !fs.isEmpty

/-- Python `str()` as applied by f-string interpolation: exact on the scalar
values the adapter formats (str, bool, None, int).  Containers would print a
full recursive `repr`; no code path under verification formats one, so they
are rendered with a fixed marker rather than reproducing CPython repr
escaping. -/
def pyStr : J → String
  | J.null => "None"
  | J.b true => "True"
  | J.b false => "False"
  | J.num n => toString n
  | J.s t => t
  | J.arr _ => "<list>"
  | J.obj _ => "<dict>"

/-- The ASCII whitespace characters stripped by Python `str.strip()`
(space, tab, newline, carriage return, vertical tab, form feed; the further
unicode whitespace Python also strips never occurs in the claims). -/
def pyWhitespace (c : Char) : Bool :=
  c == ' ' || c == '\t' || c == '\n' || c == '\r' || c == '\x0b' || c == '\x0c'

/-- Python `str.strip()`: drop leading and trailing whitespace. -/
def pyStrip (str : String) : String :=
  String.mk (((str.data.dropWhile pyWhitespace).reverse.dropWhile pyWhitespace).reverse)

/-- The Python type name of a value, used in `AttributeError` messages. -/
def pyTypeName : J → String
  | J.null => "NoneType"
  | J.b _ => "bool"
  | J.num _ => "int"
  | J.s _ => "str"
  | J.arr _ => "list"
  | J.obj _ => "dict"

/-- Python `o.get(k)`: on a dict, `some` the value when the key is present
(`none` when absent); on any other value it raises `AttributeError`, which we
model in `Except` (inside `who_is_this` the surrounding `try` catches it). -/
def pyGet (o : J) (k : String) : Except String (Option J) :=
  match o with
  | J.obj fields => Except.ok ((fields.find? (fun p => p.1 == k)).map (fun p => p.2))
  | v => Except.error ("AttributeError: " ++ pyTypeName v ++ " object has no attribute get")

/-- `name = profile.get("full_name") or f"{profile.get('first_name', '')} {profile.get('last_name', '')}".strip()`
(mcp_server.py line 176).  The `or` falls through on any falsy `full_name`
(absent, None, empty string); the fallback interpolates the two name parts
with `str()` and strips surrounding whitespace. -/
def resolveNameE (profile : J) : Except String J := do
  let full_name := (← pyGet profile "full_name").getD J.null
  if truthy full_name then
    Except.ok full_name
  else do
    let first_name := (← pyGet profile "first_name").getD (J.s "")
    let last_name := (← pyGet profile "last_name").getD (J.s "")
    Except.ok (J.s (pyStrip (pyStr first_name ++ " " ++ pyStr last_name)))

/-- `next((exp for exp in experiences if exp.get("is_current")), None)`
(mcp_server.py line 185): first entry whose `is_current` is truthy, scanning
left to right and raising if a scanned entry is not a dict. -/
def findCurrentE : List J → Except String (Option J)
  | [] => Except.ok none
  | e :: rest => do
      let ic := (← pyGet e "is_current").getD J.null
      if truthy ic then Except.ok (some e) else findCurrentE rest

/-- The selected experience entry: the first entry flagged current, else the
first entry of the list (mcp_server.py lines 185-188). -/
def selectRoleE (exps : List J) : Except String (Option J) := do
  let flagged ← findCurrentE exps
  match flagged with
  | some r => Except.ok (some r)
  | none => Except.ok exps.head?

/-- `current_company = f"{title} at {comp}" if title and comp else comp or title`
(mcp_server.py lines 191-193), with `comp`/`title` defaulting to `""` when the
key is absent. -/
def roleStringE (role : J) : Except String J := do
  let comp := (← pyGet role "company").getD (J.s "")
  let title := (← pyGet role "title").getD (J.s "")
  Except.ok
    (if truthy title && truthy comp then J.s (pyStr title ++ " at " ++ pyStr comp)
     else if truthy comp then comp else title)

/-- The company-summary computation of `who_is_this` (mcp_server.py lines
180-193): `current_company` starts as `"Unknown"` and is replaced only when
the experiences value is a non-empty list and the selected entry is truthy
(a non-dict entry scanned on the way raises, caught by the outer `try`). -/
def resolveCompanyE (profile : J) : Except String J := do
  let experiences := (← pyGet profile "experiences").getD (J.arr [])
  match experiences with
  | J.arr exps =>
    if exps.isEmpty then Except.ok (J.s "Unknown")
    else do
      let current_role ← selectRoleE exps
      match current_role with
      | some role =>
          if truthy role then roleStringE role else Except.ok (J.s "Unknown")
      | none => Except.ok (J.s "Unknown")
  | _ => Except.ok (J.s "Unknown")

/-- The body of the `try` block of `who_is_this` after the HTTP call
succeeded and the body parsed to `data` (mcp_server.py lines 172-199):
unwrap the optional `data` envelope, resolve name and company, and return
the summary object. -/
def whoIsThisBody (data : J) : Except String J := do
  let profile := (← pyGet data "data").getD data
  let name ← resolveNameE profile
  let company ← resolveCompanyE profile
  let about := (← pyGet profile "about").getD J.null
  Except.ok (J.obj [("name", name), ("company", company), ("about", about)])

/-- `who_is_this(linkedin_url)` (mcp_server.py lines 136-202).  `hasKey`
models whether `RAPIDAPI_KEY` is set; `fetch` models the outcome of
`requests.get` + `raise_for_status` + `response.json()` — `Except.error`
is any exception those three raise (network failure, non-2xx status,
malformed body), carrying `str(e)`.  Every exception of the `try` block,
whether from the fetch or from the field extraction, is converted by the
`except` clause into the structured error payload. -/
def who_is_this (hasKey : Bool) (fetch : Except String J) : J :=
  if !hasKey then J.obj [("error", J.s "RAPIDAPI_KEY not set in environment")]
  else
    match fetch.bind whoIsThisBody with
    | Except.ok v => v
    | Except.error e => J.obj [("error", J.s ("Failed to fetch LinkedIn data: " ++ e))]

/-! ## Store-backed tools

The Supabase query-builder chains are embedded as request descriptors: a
`.table(t).select("*").eq(c, v)...` chain becomes a `Request.selectQ` with the
`eq` filters in chain order, the optional `.single()`, the optional
`.order(column, desc)` and `.limit(n)`; `.update(payload).eq(...)` and
`.insert(payload)` become `updateQ`/`insertQ`.  The client itself is an
oracle `store : Request → J` giving the `response.data` for the executed
request, and every tool returns `(result, issued requests)` so that "no
request was issued" is expressible. -/

/-- A Supabase request as built by one tool invocation. -/
inductive Request where
  | selectQ (table : String) (eqFilters : List (String × String)) (single : Bool)
      (order : Option (String × Bool)) (lim : Option Nat)
  | updateQ (table : String) (payload : List (String × J)) (eqFilters : List (String × String))
  | insertQ (table : String) (payload : List (String × J))
  deriving Repr

/-- The uniform error object for an uninitialized client. -/
def noClientError : J := J.obj [("error", J.s "Supabase client not initialized")]

/-- `response.data[0] if response.data else {}` (mcp_server.py lines 78, 118):
the store reports affected rows as a list; the first row, or `{}` when empty. -/
def dataFirst : J → J
  | J.arr (x :: _) => x
  | _ => J.obj []

/-- `get_identity(identity_id)` (mcp_server.py lines 34-41). -/
def get_identity (supabase : Bool) (store : Request → J) (identity_id : String) :
    J × List Request :=
  if !supabase then (noClientError, [])
  else
    let req := Request.selectQ "identities" [("id", identity_id)] true none none
    (store req, [req])

/-- The `updates` dict built by `update_identity` (mcp_server.py lines 64-72):
each optional field is added exactly when it `is not None`, in source order. -/
def updatesFor (name relationship_status linkedin_url : Option String)
    (metadata : Option (List (String × J))) : List (String × J) :=
  (match name with | some v => [("name", J.s v)] | none => [])
  ++ (match relationship_status with | some v => [("relationship_status", J.s v)] | none => [])
  ++ (match linkedin_url with | some v => [("linkedin_url", J.s v)] | none => [])
  ++ (match metadata with | some v => [("metadata", J.obj v)] | none => [])

/-- `update_identity(identity_id, name?, relationship_status?, linkedin_url?, metadata?)`
(mcp_server.py lines 43-78). -/
def update_identity (supabase : Bool) (store : Request → J) (identity_id : String)
    (name relationship_status linkedin_url : Option String)
    (metadata : Option (List (String × J))) : J × List Request :=
  if !supabase then (noClientError, [])
  else
    let updates := updatesFor name relationship_status linkedin_url metadata
    if updates.isEmpty then (J.obj [("error", J.s "No updates provided")], [])
    else
      let req := Request.updateQ "identities" updates [("id", identity_id)]
      (dataFirst (store req), [req])

/-- `get_events(session_id, limit)` (mcp_server.py lines 80-87): select events
by session, ordered by `created_at` (ascending, the builder default), limited. -/
def get_events (supabase : Bool) (store : Request → J) (session_id : String)
    (lim : Nat) : J × List Request :=
  if !supabase then (J.arr [noClientError], [])
  else
    let req := Request.selectQ "events" [("session_id", session_id)] false
      (some ("created_at", false)) (some lim)
    (store req, [req])

/-- `get_events` with the Python default `limit: int = 50`. -/
def get_events_default (supabase : Bool) (store : Request → J) (session_id : String) :
    J × List Request :=
  get_events supabase store session_id 50

/-- The insert payload of `create_event` (mcp_server.py lines 108-115): the
required `type`/`content`, then `session_id` and `related_identity_id` added
under Python truthiness (`if session_id:`), so `None` and `""` are both
omitted. -/
def eventDataFor (type content : String) (session_id related_identity_id : Option String) :
    List (String × J) :=
  [("type", J.s type), ("content", J.s content)]
  ++ (match session_id with
      | some v => if v == "" then [] else [("session_id", J.s v)]
      | none => [])
  ++ (match related_identity_id with
      | some v => if v == "" then [] else [("related_identity_id", J.s v)]
      | none => [])

/-- `create_event(type, content, session_id?, related_identity_id?)`
(mcp_server.py lines 89-118). -/
def create_event (supabase : Bool) (store : Request → J) (type content : String)
    (session_id related_identity_id : Option String) : J × List Request :=
  if !supabase then (noClientError, [])
  else
    let req := Request.insertQ "events" (eventDataFor type content session_id related_identity_id)
    (dataFirst (store req), [req])

/-- `get_notes(identity_id, limit)` (mcp_server.py lines 121-133): select
events by `related_identity_id` with `type = "NOTES"`, ordered by `created_at`
descending, limited. -/
def get_notes (supabase : Bool) (store : Request → J) (identity_id : String)
    (lim : Nat) : J × List Request :=
  if !supabase then (J.arr [noClientError], [])
  else
    let req := Request.selectQ "events"
      [("related_identity_id", identity_id), ("type", "NOTES")] false
      (some ("created_at", true)) (some lim)
    (store req, [req])

/-- `get_notes` with the Python default `limit: int = 50`. -/
def get_notes_default (supabase : Bool) (store : Request → J) (identity_id : String) :
    J × List Request :=
  get_notes supabase store identity_id 50

/-! ## Helper lemmas -/

/-- `bind` on a successful `Except` computation applies the continuation. -/
theorem except_bind_ok {ε α β : Type} (a : α) (f : α → Except ε β) :
    (Except.ok a : Except ε α).bind f = f a := rfl

/-- `bind` via the `Monad` instance, as produced by `do` notation. -/
theorem except_monad_bind_ok {ε α β : Type} (a : α) (f : α → Except ε β) :
    (Bind.bind (Except.ok a) f : Except ε β) = f a := rfl

/-- An experience entry that `exp.get("is_current")` reads without raising and
finds falsy (a dict whose `is_current` is absent or falsy). -/
def expNotCurrent (x : J) : Prop :=
  ∃ r, pyGet x "is_current" = Except.ok r ∧ truthy (r.getD J.null) = false

/-- An experience entry whose `is_current` is present and truthy. -/
def expIsCurrent (x : J) : Prop :=
  ∃ r, pyGet x "is_current" = Except.ok (some r) ∧ truthy r = true

theorem truthy_of_pyGet_some {x : J} {k : String} {v : J}
    (h : pyGet x k = Except.ok (some v)) : truthy x = true := by
  cases x with
  | obj fields =>
    cases fields with
    | nil => simp [pyGet] at h
    | cons p rest => simp [truthy]
  | null => simp [pyGet] at h
  | b bb => simp [pyGet] at h
  | num n => simp [pyGet] at h
  | s t => simp [pyGet] at h
  | arr xs => simp [pyGet] at h

theorem findCurrentE_cons {e : J} {r : Option J} (rest : List J)
    (hx : pyGet e "is_current" = Except.ok r) :
    findCurrentE (e :: rest) =
      if truthy (r.getD J.null) then Except.ok (some e) else findCurrentE rest := by
  simp [findCurrentE, hx, except_monad_bind_ok]

theorem findCurrentE_none {l : List J} (h : ∀ x ∈ l, expNotCurrent x) :
    findCurrentE l = Except.ok none := by
  induction l with
  | nil => rfl
  | cons e rest ih =>
    obtain ⟨r, hr, hf⟩ := h e (List.mem_cons_self e rest)
    rw [findCurrentE_cons rest hr, hf]
    exact ih (fun x hx => h x (List.mem_cons_of_mem e hx))

theorem findCurrentE_append_flagged {l1 l2 : List J} {e : J}
    (h1 : ∀ x ∈ l1, expNotCurrent x) (he : expIsCurrent e) :
    findCurrentE (l1 ++ e :: l2) = Except.ok (some e) := by
  induction l1 with
  | nil =>
    obtain ⟨r, hr, ht⟩ := he
    rw [List.nil_append, findCurrentE_cons l2 hr]
    simp [ht]
  | cons x t ih =>
    obtain ⟨r, hr, hf⟩ := h1 x (List.mem_cons_self x t)
    rw [List.cons_append, findCurrentE_cons (t ++ e :: l2) hr, hf,
      if_neg Bool.false_ne_true]
    exact ih (fun y hy => h1 y (List.mem_cons_of_mem x hy))

theorem selectRoleE_eq {exps : List J} {flagged : Option J}
    (h : findCurrentE exps = Except.ok flagged) :
    selectRoleE exps = Except.ok (flagged.or exps.head?) := by
  cases flagged <;> simp [selectRoleE, h, except_monad_bind_ok, Option.or]

theorem resolveCompanyE_of_selected {profile : J} {exps : List J} {role : J}
    (hx : pyGet profile "experiences" = Except.ok (some (J.arr exps)))
    (hne : exps ≠ [])
    (hsel : selectRoleE exps = Except.ok (some role)) :
    resolveCompanyE profile =
      if truthy role then roleStringE role else Except.ok (J.s "Unknown") := by
  cases exps with
  | nil => exact absurd rfl hne
  | cons a t =>
    simp [resolveCompanyE, hx, except_monad_bind_ok, hsel]

theorem resolveCompanyE_no_list {profile : J}
    (hx : pyGet profile "experiences" = Except.ok (some (J.arr [])) ∨
          pyGet profile "experiences" = Except.ok none) :
    resolveCompanyE profile = Except.ok (J.s "Unknown") := by
  rcases hx with hx | hx <;> simp [resolveCompanyE, hx, except_monad_bind_ok]

/-! ## Claims -/

/-- Claim C1: every call to `update_identity` with all four optional fields
absent returns the structured error `⦃"error": "No updates provided"⦄` and
issues no request to the store, so the store state is unchanged. -/
theorem update_identity_no_fields_rejected :
    ∀ (store : Request → J) (identity_id : String),
      update_identity true store identity_id none none none none
        = (J.obj [("error", J.s "No updates provided")], []) :=
  fun _ _ => rfl

/-- Claim C2: with the store client uninitialized, every store-backed tool
returns its type-appropriate error shape and issues no request: the
list-returning tools `get_events` and `get_notes` return a one-element list
holding the error object, and the scalar tools `get_identity`,
`update_identity` and `create_event` return the error object directly. -/
theorem uninitialized_client_error_shapes :
    (∀ (store : Request → J) (identity_id : String),
       get_identity false store identity_id
         = (J.obj [("error", J.s "Supabase client not initialized")], [])) ∧
    (∀ (store : Request → J) (identity_id : String)
       (name relationship_status linkedin_url : Option String)
       (metadata : Option (List (String × J))),
       update_identity false store identity_id name relationship_status linkedin_url metadata
         = (J.obj [("error", J.s "Supabase client not initialized")], [])) ∧
    (∀ (store : Request → J) (type content : String)
       (session_id related_identity_id : Option String),
       create_event false store type content session_id related_identity_id
         = (J.obj [("error", J.s "Supabase client not initialized")], [])) ∧
    (∀ (store : Request → J) (session_id : String) (lim : Nat),
       get_events false store session_id lim
         = (J.arr [J.obj [("error", J.s "Supabase client not initialized")]], [])) ∧
    (∀ (store : Request → J) (identity_id : String) (lim : Nat),
       get_notes false store identity_id lim
         = (J.arr [J.obj [("error", J.s "Supabase client not initialized")]], [])) :=
  ⟨fun _ _ => rfl, fun _ _ _ _ _ _ => rfl, fun _ _ _ _ _ => rfl,
   fun _ _ _ => rfl, fun _ _ _ => rfl⟩

/-- Claim C5: with the API key set, any exception raised inside the `try`
block of `who_is_this` — whether from the HTTP request / status check / body
parse (the `fetch` outcome) or from the subsequent field extraction — yields
the structured payload `⦃"error": "Failed to fetch LinkedIn data: <reason>"⦄`
rather than an unhandled exception (the embedding is a total function). -/
theorem who_is_this_error_payload :
    (∀ reason : String,
       who_is_this true (Except.error reason)
         = J.obj [("error", J.s ("Failed to fetch LinkedIn data: " ++ reason))]) ∧
    (∀ (data : J) (e : String), whoIsThisBody data = Except.error e →
       who_is_this true (Except.ok data)
         = J.obj [("error", J.s ("Failed to fetch LinkedIn data: " ++ e))]) := by
  refine ⟨fun reason => rfl, fun data e h => ?_⟩
  simp [who_is_this, except_bind_ok, h]

/-- Witness for C5: a response body that is a bare list (not an object) makes
the extraction raise `AttributeError`, and the tool returns the structured
error payload. -/
theorem who_is_this_error_payload_witness :
    who_is_this true (Except.ok (J.arr []))
      = J.obj [("error",
          J.s "Failed to fetch LinkedIn data: AttributeError: list object has no attribute get")] :=
  who_is_this_error_payload.2 (J.arr [])
    "AttributeError: list object has no attribute get" rfl

/-- Claim C6: `get_notes` queries the events table filtered by the given
`related_identity_id` and by `type = "NOTES"` (the literal its own docstring
and `create_event`'s documented category tags call `CONVERSATION_NOTE`). -/
theorem get_notes_queries_type_NOTES :
    ∀ (store : Request → J) (identity_id : String) (lim : Nat),
      get_notes true store identity_id lim
        = (store (Request.selectQ "events"
             [("related_identity_id", identity_id), ("type", "NOTES")] false
             (some ("created_at", true)) (some lim)),
           [Request.selectQ "events"
             [("related_identity_id", identity_id), ("type", "NOTES")] false
             (some ("created_at", true)) (some lim)]) :=
  fun _ _ _ => rfl

/-- Claim C9: with an initialized client, `get_events` orders by `created_at`
ascending (the builder default) and `get_notes` by `created_at` descending;
both apply the caller-supplied limit, whose Python default is 50. -/
theorem query_order_and_limit :
    (∀ (store : Request → J) (session_id : String) (lim : Nat),
       (get_events true store session_id lim).2
         = [Request.selectQ "events" [("session_id", session_id)] false
             (some ("created_at", false)) (some lim)]) ∧
    (∀ (store : Request → J) (identity_id : String) (lim : Nat),
       (get_notes true store identity_id lim).2
         = [Request.selectQ "events"
             [("related_identity_id", identity_id), ("type", "NOTES")] false
             (some ("created_at", true)) (some lim)]) ∧
    (∀ (supabase : Bool) (store : Request → J) (session_id : String),
       get_events_default supabase store session_id = get_events supabase store session_id 50) ∧
    (∀ (supabase : Bool) (store : Request → J) (identity_id : String),
       get_notes_default supabase store identity_id = get_notes supabase store identity_id 50) :=
  ⟨fun _ _ _ => rfl, fun _ _ _ => rfl, fun _ _ _ => rfl, fun _ _ _ => rfl⟩

/-- Counterexample to claim C3 as stated: a profile that contains the key
`full_name` with the empty string is not resolved verbatim — the `or` of
line 176 treats the falsy value as absent and falls through to the
first/last concatenation. -/
theorem resolveName_full_name_empty_cex :
    pyGet (J.obj [("full_name", J.s ""), ("first_name", J.s "Ada"), ("last_name", J.s "Lovelace")])
        "full_name" = Except.ok (some (J.s "")) ∧
    resolveNameE (J.obj [("full_name", J.s ""), ("first_name", J.s "Ada"), ("last_name", J.s "Lovelace")])
      = Except.ok (J.s "Ada Lovelace") ∧
    ("Ada Lovelace" : String) ≠ "" :=
  ⟨rfl, rfl, by decide⟩

/-- Claim C3 (amended): when the profile contains `full_name` with a truthy
(non-null, non-empty) value, `who_is_this` resolves the name to that value
verbatim; when `full_name` is absent, null or empty, the resolved name is the
whitespace-stripped concatenation of `first_name`, a space, and `last_name`
(each treated as the empty string when absent). -/
theorem resolveName_spec :
    (∀ (profile v : J),
       pyGet profile "full_name" = Except.ok (some v) → truthy v = true →
       resolveNameE profile = Except.ok v) ∧
    (∀ (profile : J) (r fn ln : Option J),
       pyGet profile "full_name" = Except.ok r → truthy (r.getD J.null) = false →
       pyGet profile "first_name" = Except.ok fn →
       pyGet profile "last_name" = Except.ok ln →
       resolveNameE profile
         = Except.ok (J.s (pyStrip
             (pyStr (fn.getD (J.s "")) ++ " " ++ pyStr (ln.getD (J.s "")))))) := by
  constructor
  · intro profile v h ht
    simp [resolveNameE, h, except_monad_bind_ok, ht]
  · intro profile r fn ln h hf h1 h2
    simp [resolveNameE, h, except_monad_bind_ok, hf, h1, h2]

/-- Witness for C3 (amended): a truthy `full_name` is returned verbatim, and
a profile with only name parts resolves to their stripped concatenation. -/
theorem resolveName_spec_witness :
    resolveNameE (J.obj [("full_name", J.s "Sherlock Holmes")])
      = Except.ok (J.s "Sherlock Holmes") ∧
    resolveNameE (J.obj [("first_name", J.s "John"), ("last_name", J.s "Watson")])
      = Except.ok (J.s "John Watson") := by
  constructor
  · exact resolveName_spec.1 (J.obj [("full_name", J.s "Sherlock Holmes")])
      (J.s "Sherlock Holmes") rfl rfl
  · exact resolveName_spec.2 (J.obj [("first_name", J.s "John"), ("last_name", J.s "Watson")])
      none (some (J.s "John")) (some (J.s "Watson")) rfl rfl rfl rfl

/-- Claim C4: when exactly one experience entry is flagged current, the
company string is synthesized from that entry; when none is flagged, the
first entry of the list is selected; when the experiences list is empty or
absent, the company is the sentinel `"Unknown"`. -/
theorem current_experience_selection :
    (∀ (profile : J) (exps l1 l2 : List J) (e : J),
       pyGet profile "experiences" = Except.ok (some (J.arr exps)) →
       exps = l1 ++ e :: l2 →
       (∀ x ∈ l1, expNotCurrent x) → expIsCurrent e → (∀ x ∈ l2, expNotCurrent x) →
       selectRoleE exps = Except.ok (some e) ∧ resolveCompanyE profile = roleStringE e) ∧
    (∀ (profile : J) (exps rest : List J) (e0 : J),
       pyGet profile "experiences" = Except.ok (some (J.arr exps)) →
       exps = e0 :: rest →
       (∀ x ∈ exps, expNotCurrent x) →
       selectRoleE exps = Except.ok (some e0) ∧
         (truthy e0 = true → resolveCompanyE profile = roleStringE e0)) ∧
    (∀ profile : J,
       (pyGet profile "experiences" = Except.ok (some (J.arr [])) ∨
        pyGet profile "experiences" = Except.ok none) →
       resolveCompanyE profile = Except.ok (J.s "Unknown")) := by
  refine ⟨?_, ?_, ?_⟩
  · intro profile exps l1 l2 e hx hdec h1 he h2
    subst hdec
    have hfind : findCurrentE (l1 ++ e :: l2) = Except.ok (some e) :=
      findCurrentE_append_flagged h1 he
    have hsel : selectRoleE (l1 ++ e :: l2) = Except.ok (some e) := selectRoleE_eq hfind
    refine ⟨hsel, ?_⟩
    have htr : truthy e = true := by
      obtain ⟨r, hr, _⟩ := he
      exact truthy_of_pyGet_some hr
    rw [resolveCompanyE_of_selected hx (by simp) hsel, if_pos htr]
  · intro profile exps rest e0 hx hdec hall
    subst hdec
    have hfind := findCurrentE_none hall
    have hsel : selectRoleE (e0 :: rest) = Except.ok (some e0) := selectRoleE_eq hfind
    refine ⟨hsel, fun htr => ?_⟩
    rw [resolveCompanyE_of_selected hx (by simp) hsel, if_pos htr]
  · intro profile hx
    exact resolveCompanyE_no_list hx

/-- Witness for C4: with one non-current and one current experience, the
company string is synthesized from the current entry. -/
theorem current_experience_selection_witness :
    resolveCompanyE (J.obj [("experiences", J.arr
        [J.obj [("is_current", J.b false), ("company", J.s "Scotland Yard")],
         J.obj [("is_current", J.b true), ("company", J.s "Baker Street"),
                ("title", J.s "Consulting Detective")]])])
      = Except.ok (J.s "Consulting Detective at Baker Street") := by
  have h := current_experience_selection.1
    (J.obj [("experiences", J.arr
        [J.obj [("is_current", J.b false), ("company", J.s "Scotland Yard")],
         J.obj [("is_current", J.b true), ("company", J.s "Baker Street"),
                ("title", J.s "Consulting Detective")]])])
    [J.obj [("is_current", J.b false), ("company", J.s "Scotland Yard")],
     J.obj [("is_current", J.b true), ("company", J.s "Baker Street"),
            ("title", J.s "Consulting Detective")]]
    [J.obj [("is_current", J.b false), ("company", J.s "Scotland Yard")]]
    []
    (J.obj [("is_current", J.b true), ("company", J.s "Baker Street"),
            ("title", J.s "Consulting Detective")])
    rfl rfl
    (by
      intro x hx
      rw [List.mem_singleton] at hx
      subst hx
      exact ⟨some (J.b false), rfl, rfl⟩)
    ⟨J.b true, rfl, rfl⟩
    (by intro x hx; exact absurd hx (List.not_mem_nil x))
  rw [h.2]
  exact rfl

/-! ## Payload membership lemmas -/

theorem mem_updatesFor_name {name relationship_status linkedin_url : Option String}
    {metadata : Option (List (String × J))} (v : String) :
    ("name", J.s v) ∈ updatesFor name relationship_status linkedin_url metadata
      ↔ name = some v := by
  cases name <;> cases relationship_status <;> cases linkedin_url <;> cases metadata <;>
    simp [updatesFor, eq_comm]

theorem mem_updatesFor_relationship {name relationship_status linkedin_url : Option String}
    {metadata : Option (List (String × J))} (v : String) :
    ("relationship_status", J.s v) ∈ updatesFor name relationship_status linkedin_url metadata
      ↔ relationship_status = some v := by
  cases name <;> cases relationship_status <;> cases linkedin_url <;> cases metadata <;>
    simp [updatesFor, eq_comm]

theorem mem_updatesFor_linkedin {name relationship_status linkedin_url : Option String}
    {metadata : Option (List (String × J))} (v : String) :
    ("linkedin_url", J.s v) ∈ updatesFor name relationship_status linkedin_url metadata
      ↔ linkedin_url = some v := by
  cases name <;> cases relationship_status <;> cases linkedin_url <;> cases metadata <;>
    simp [updatesFor, eq_comm]

theorem mem_updatesFor_metadata {name relationship_status linkedin_url : Option String}
    {metadata : Option (List (String × J))} (m : List (String × J)) :
    ("metadata", J.obj m) ∈ updatesFor name relationship_status linkedin_url metadata
      ↔ metadata = some m := by
  cases name <;> cases relationship_status <;> cases linkedin_url <;> cases metadata <;>
    simp [updatesFor, eq_comm]

theorem mem_eventDataFor_session {type content : String}
    {session_id related_identity_id : Option String} (v : String) :
    ("session_id", J.s v) ∈ eventDataFor type content session_id related_identity_id
      ↔ (session_id = some v ∧ v ≠ "") := by
  have step : ∀ s : String, ¬s = "" → (v = s ↔ s = v ∧ ¬v = "") := by
    intro s hs
    constructor
    · rintro rfl
      exact ⟨rfl, hs⟩
    · rintro ⟨h1, _⟩
      exact h1.symm
  rcases session_id with _ | s <;> rcases related_identity_id with _ | t
  · simp [eventDataFor]
  · by_cases ht : t = "" <;> simp [eventDataFor, ht]
  · by_cases hs : s = ""
    · simp [eventDataFor, hs]
      exact fun h => h.symm
    · simp [eventDataFor, hs]
      exact step s hs
  · by_cases hs : s = "" <;> by_cases ht : t = "" <;> simp [eventDataFor, hs, ht]
    · exact fun h => h.symm
    · exact fun h => h.symm
    · exact step s hs
    · exact step s hs

theorem mem_eventDataFor_related {type content : String}
    {session_id related_identity_id : Option String} (v : String) :
    ("related_identity_id", J.s v) ∈ eventDataFor type content session_id related_identity_id
      ↔ (related_identity_id = some v ∧ v ≠ "") := by
  have step : ∀ t : String, ¬t = "" → (v = t ↔ t = v ∧ ¬v = "") := by
    intro t ht
    constructor
    · rintro rfl
      exact ⟨rfl, ht⟩
    · rintro ⟨h1, _⟩
      exact h1.symm
  rcases session_id with _ | s <;> rcases related_identity_id with _ | t
  · simp [eventDataFor]
  · by_cases ht : t = ""
    · simp [eventDataFor, ht]
      exact fun h => h.symm
    · simp [eventDataFor, ht]
      exact step t ht
  · by_cases hs : s = "" <;> simp [eventDataFor, hs]
  · by_cases hs : s = "" <;> by_cases ht : t = "" <;> simp [eventDataFor, hs, ht]
    · exact fun h => h.symm
    · exact step t ht
    · exact fun h => h.symm
    · exact step t ht

/-- Counterexample to claim C7 as stated: `create_event` drops a supplied,
non-null `session_id` when it is the empty string, because line 112 tests
Python truthiness (`if session_id:`) rather than `is not None`. -/
theorem create_event_empty_session_id_cex :
    (create_event true (fun _ => J.arr []) "CONVERSATION_NOTE" "met at the club"
        (some "") none).2
      = [Request.insertQ "events"
          [("type", J.s "CONVERSATION_NOTE"), ("content", J.s "met at the club")]] ∧
    ((eventDataFor "CONVERSATION_NOTE" "met at the club" (some "") none).find?
        (fun p => p.1 == "session_id") = none) ∧
    (some "" ≠ (none : Option String)) :=
  ⟨rfl, rfl, by decide⟩

/-- Claim C7 (amended): `update_identity` includes each of `name`,
`relationship_status`, `linkedin_url` and `metadata` in the update payload
exactly when the argument is not `None`, while `create_event` includes
`session_id` and `related_identity_id` exactly when the argument is truthy,
i.e. supplied, non-null and non-empty; each tool issues exactly the request
carrying that payload. -/
theorem optional_field_inclusion :
    (∀ (name relationship_status linkedin_url : Option String)
       (metadata : Option (List (String × J))),
       (∀ v, ("name", J.s v) ∈ updatesFor name relationship_status linkedin_url metadata
          ↔ name = some v) ∧
       (∀ v, ("relationship_status", J.s v)
            ∈ updatesFor name relationship_status linkedin_url metadata
          ↔ relationship_status = some v) ∧
       (∀ v, ("linkedin_url", J.s v) ∈ updatesFor name relationship_status linkedin_url metadata
          ↔ linkedin_url = some v) ∧
       (∀ m, ("metadata", J.obj m) ∈ updatesFor name relationship_status linkedin_url metadata
          ↔ metadata = some m)) ∧
    (∀ (type content : String) (session_id related_identity_id : Option String),
       (∀ v, ("session_id", J.s v) ∈ eventDataFor type content session_id related_identity_id
          ↔ (session_id = some v ∧ v ≠ "")) ∧
       (∀ v, ("related_identity_id", J.s v)
            ∈ eventDataFor type content session_id related_identity_id
          ↔ (related_identity_id = some v ∧ v ≠ ""))) ∧
    (∀ (store : Request → J) (identity_id : String)
       (name relationship_status linkedin_url : Option String)
       (metadata : Option (List (String × J))),
       updatesFor name relationship_status linkedin_url metadata ≠ [] →
       (update_identity true store identity_id name relationship_status linkedin_url metadata).2
         = [Request.updateQ "identities"
             (updatesFor name relationship_status linkedin_url metadata) [("id", identity_id)]]) ∧
    (∀ (store : Request → J) (type content : String)
       (session_id related_identity_id : Option String),
       (create_event true store type content session_id related_identity_id).2
         = [Request.insertQ "events"
             (eventDataFor type content session_id related_identity_id)]) := by
  refine ⟨?_, ?_, ?_, ?_⟩
  · intro name relationship_status linkedin_url metadata
    exact ⟨fun v => mem_updatesFor_name v, fun v => mem_updatesFor_relationship v,
           fun v => mem_updatesFor_linkedin v, fun m => mem_updatesFor_metadata m⟩
  · intro type content session_id related_identity_id
    exact ⟨fun v => mem_eventDataFor_session v, fun v => mem_eventDataFor_related v⟩
  · intro store identity_id name relationship_status linkedin_url metadata hne
    rcases hl : updatesFor name relationship_status linkedin_url metadata with _ | ⟨a, t⟩
    · exact absurd hl hne
    · simp [update_identity, hl]
  · intro store type content session_id related_identity_id
    rfl

/-- Witness for C7 (amended): a supplied name lands in the payload and the
update request carries exactly that payload. -/
theorem optional_field_inclusion_witness :
    ("name", J.s "Irene Adler") ∈ updatesFor (some "Irene Adler") none none none ∧
    (update_identity true (fun _ => J.arr []) "id-1" (some "Irene Adler") none none none).2
      = [Request.updateQ "identities" [("name", J.s "Irene Adler")] [("id", "id-1")]] := by
  constructor
  · exact ((optional_field_inclusion.1 (some "Irene Adler") none none none).1
      "Irene Adler").mpr rfl
  · exact optional_field_inclusion.2.2.1 (fun _ => J.arr []) "id-1"
      (some "Irene Adler") none none none (by simp [updatesFor])

/-- Claim C8: on a write whose store response reports rows, the tool returns
the first affected record; when the store reports no rows, it returns `⦃⦄`
(the response rows list's head, defaulting to the empty object). -/
theorem write_result_first_row :
    (∀ (store : Request → J) (identity_id : String)
       (name relationship_status linkedin_url : Option String)
       (metadata : Option (List (String × J))) (rows : List J),
       updatesFor name relationship_status linkedin_url metadata ≠ [] →
       store (Request.updateQ "identities"
           (updatesFor name relationship_status linkedin_url metadata) [("id", identity_id)])
         = J.arr rows →
       (update_identity true store identity_id name relationship_status linkedin_url metadata).1
         = rows.headD (J.obj [])) ∧
    (∀ (store : Request → J) (type content : String)
       (session_id related_identity_id : Option String) (rows : List J),
       store (Request.insertQ "events" (eventDataFor type content session_id related_identity_id))
         = J.arr rows →
       (create_event true store type content session_id related_identity_id).1
         = rows.headD (J.obj [])) := by
  constructor
  · intro store identity_id name relationship_status linkedin_url metadata rows hne hst
    rcases hl : updatesFor name relationship_status linkedin_url metadata with _ | ⟨a, t⟩
    · exact absurd hl hne
    · rw [hl] at hst
      simp [update_identity, hl, hst]
      cases rows <;> simp [dataFirst]
  · intro store type content session_id related_identity_id rows hst
    simp [create_event, hst]
    cases rows <;> simp [dataFirst]

/-- Witness for C8: a store reporting one affected row makes `update_identity`
return that row, and a store reporting no rows makes `create_event` return
the empty object. -/
theorem write_result_first_row_witness :
    (update_identity true
        (fun _ => J.arr [J.obj [("id", J.s "id-1"), ("name", J.s "Mary Morstan")]])
        "id-1" (some "Mary Morstan") none none none).1
      = J.obj [("id", J.s "id-1"), ("name", J.s "Mary Morstan")] ∧
    (create_event true (fun _ => J.arr []) "AGENT_WHISPER" "whisper" none none).1
      = J.obj [] := by
  constructor
  · exact write_result_first_row.1
      (fun _ => J.arr [J.obj [("id", J.s "id-1"), ("name", J.s "Mary Morstan")]])
      "id-1" (some "Mary Morstan") none none none
      [J.obj [("id", J.s "id-1"), ("name", J.s "Mary Morstan")]]
      (by simp [updatesFor]) rfl
  · exact write_result_first_row.2 (fun _ => J.arr []) "AGENT_WHISPER" "whisper"
      none none [] rfl

/-- Counterexample to claim C10 as stated: an experiences list whose sole
(selected) entry is the empty object — company and title both missing — does
not yield the empty string: the empty dict is falsy, so `if current_role:`
fails and the company stays `"Unknown"`. -/
theorem empty_experience_entry_cex :
    resolveCompanyE (J.obj [("experiences", J.arr [J.obj []])])
      = Except.ok (J.s "Unknown") ∧
    ("Unknown" : String) ≠ "" :=
  ⟨rfl, by decide⟩

/-- Claim C10 (amended): when the selected experience entry is a non-empty
object, the company result is the title value when company is falsy (in
particular the empty string — not `"Unknown"` — when both are empty or
missing), the company value when only it is truthy, and
`"<title> at <company>"` when both are truthy; when the selected entry is
the empty object (falsy), the company remains `"Unknown"`. -/
theorem role_string_synthesis (profile role : J) (exps : List J)
    (comp title : Option J)
    (hx : pyGet profile "experiences" = Except.ok (some (J.arr exps)))
    (hne : exps ≠ [])
    (hsel : selectRoleE exps = Except.ok (some role))
    (hc : pyGet role "company" = Except.ok comp)
    (ht : pyGet role "title" = Except.ok title) :
    (truthy role = false → resolveCompanyE profile = Except.ok (J.s "Unknown")) ∧
    (truthy role = true →
      ((truthy (comp.getD (J.s "")) = false ∧ truthy (title.getD (J.s "")) = false →
          resolveCompanyE profile = Except.ok (title.getD (J.s ""))) ∧
       (truthy (comp.getD (J.s "")) = true ∧ truthy (title.getD (J.s "")) = false →
          resolveCompanyE profile = Except.ok (comp.getD (J.s ""))) ∧
       (truthy (comp.getD (J.s "")) = false ∧ truthy (title.getD (J.s "")) = true →
          resolveCompanyE profile = Except.ok (title.getD (J.s ""))) ∧
       (truthy (comp.getD (J.s "")) = true ∧ truthy (title.getD (J.s "")) = true →
          resolveCompanyE profile
            = Except.ok (J.s (pyStr (title.getD (J.s "")) ++ " at "
                ++ pyStr (comp.getD (J.s ""))))))) := by
  have hres := resolveCompanyE_of_selected hx hne hsel
  constructor
  · intro hf
    rw [hres, if_neg]
    simp [hf]
  · intro htr
    rw [hres, if_pos htr]
    refine ⟨?_, ?_, ?_, ?_⟩ <;> rintro ⟨h1, h2⟩ <;>
      simp [roleStringE, hc, ht, except_monad_bind_ok, h1, h2]

/-- Witness for C10 (amended): a selected entry with company and title both
the empty string yields the empty string, not `"Unknown"`. -/
theorem role_string_synthesis_witness :
    resolveCompanyE (J.obj [("experiences",
        J.arr [J.obj [("company", J.s ""), ("title", J.s "")]])])
      = Except.ok (J.s "") :=
  ((role_string_synthesis
      (J.obj [("experiences", J.arr [J.obj [("company", J.s ""), ("title", J.s "")]])])
      (J.obj [("company", J.s ""), ("title", J.s "")])
      [J.obj [("company", J.s ""), ("title", J.s "")]]
      (some (J.s "")) (some (J.s ""))
      rfl (by simp) rfl rfl rfl).2 rfl).1 ⟨rfl, rfl⟩

end SurelookHolmes
